import Mathlib

/-!
Shallow embedding of the health-data ETL pipeline
(`src/etl/schemas.py`, `src/etl/transformation.py`, `src/etl/loading.py`).

Raw extracted records are Python dicts holding JSON/CSV scalars; they are
modelled as association lists of `RawValue`.  Python floats are modelled as
rationals: every numeric comparison performed by the code is a comparison of
decimal literals against integer bounds, where rational arithmetic agrees
with IEEE semantics.  Pydantic validation is embedded per field, in field
declaration order, returning the first failing field exactly as
`e.errors()[0]` does.
-/

namespace ETL

/-- Scalar values appearing in raw extracted field-maps (Python `None`,
`int`, `float`, `str`). -/
inductive RawValue where
  | vnull : RawValue
  | vint : Int → RawValue
  | vrat : Rat → RawValue
  | vstr : String → RawValue
deriving DecidableEq, Repr

/-- A raw record: a Python dict with string keys (key uniqueness as in dicts
is assumed; `get` reads the first binding, `set` rewrites the key's
binding). -/
abbrev RawRecord := List (String × RawValue)

/-- Dict read: `record.get(k)` (first binding for the key). -/
def RawRecord.get (r : RawRecord) (k : String) : Option RawValue :=
  match r with
  | [] => none
  | (k', v) :: rest => if k' = k then some v else RawRecord.get rest k

/-- Dict write: `record[k] = v` (rewrites the bindings of the key). -/
def RawRecord.set (r : RawRecord) (k : String) (v : RawValue) : RawRecord :=
  r.map fun p => if p.1 = k then (k, v) else p

/-! String helpers mirroring the Python operations used by the code. -/

/-- Whether `needle` occurs at the head of `hay`. -/
def leadsWith : List Char → List Char → Bool
  | [], _ => true
  | _ :: _, [] => false
  | a :: as, b :: bs => a = b && leadsWith as bs

/-- Whether `needle` occurs somewhere inside `hay` (Python `needle in hay`). -/
def hasRunL (needle : List Char) : List Char → Bool
  | [] => leadsWith needle []
  | c :: cs => leadsWith needle (c :: cs) || hasRunL needle cs

/-- Python substring test `needle in hay`. -/
def strHas (hay needle : String) : Bool :=
  hasRunL needle.toList hay.toList

/-- Python `s.lower()` (ASCII; the messages involved are ASCII). -/
def lowerStr (s : String) : String :=
  String.mk (s.toList.map Char.toLower)

/-- Python `str.strip()` on a char list. -/
def stripL (l : List Char) : List Char :=
  ((l.dropWhile Char.isWhitespace).reverse.dropWhile Char.isWhitespace).reverse

/-- Value of one decimal digit. -/
def digitVal (c : Char) : Nat := c.toNat - 48

/-- Parse a nonempty all-digit char list as a natural number. -/
def parseDigits (l : List Char) : Option Nat :=
  if l ≠ [] && l.all Char.isDigit then
    some (l.foldl (fun acc c => acc * 10 + digitVal c) 0)
  else none

/-- Python `int(s)`: strip whitespace, optional sign, decimal digits.
(Underscore digit separators are not modelled.) -/
def parseIntStr (s : String) : Option Int :=
  match stripL s.toList with
  | '+' :: rest => (parseDigits rest).map Int.ofNat
  | '-' :: rest => (parseDigits rest).map fun n => -(n : Int)
  | l => (parseDigits l).map Int.ofNat

/-- Unsigned decimal literal `digits[.digits]` with at least one digit,
as a rational. -/
def parseUnsignedFloat (l : List Char) : Option Rat :=
  let ip := l.takeWhile Char.isDigit
  let rest := l.drop ip.length
  match rest with
  | [] => (parseDigits ip).map fun n => (n : Rat)
  | '.' :: fp =>
    if fp.all Char.isDigit && (ip ≠ [] || fp ≠ []) then
      let ipv : Nat := ip.foldl (fun acc c => acc * 10 + digitVal c) 0
      let fpv : Nat := fp.foldl (fun acc c => acc * 10 + digitVal c) 0
      some ((ipv : Rat) + (fpv : Rat) / ((10 : Rat) ^ fp.length))
    else none
  | _ => none

/-- Python `float(s)` restricted to plain decimal literals with optional
sign (exponent forms, `inf` and `nan` are outside the value domain the
claims exercise and are not modelled). -/
def parseFloatStr (s : String) : Option Rat :=
  match stripL s.toList with
  | '+' :: rest => parseUnsignedFloat rest
  | '-' :: rest => (parseUnsignedFloat rest).map Neg.neg
  | l => parseUnsignedFloat l

/-! Calendar dates and ISO-8601 datetimes, mirroring Python's
`datetime.strptime` / `datetime.fromisoformat` on the formats the code
accepts. -/

/-- Gregorian leap year. -/
def isLeapYear (y : Nat) : Bool :=
  y % 4 = 0 && (y % 100 ≠ 0 || y % 400 = 0)

/-- Days in a month. -/
def daysInMonth (y m : Nat) : Nat :=
  if m = 2 then (if isLeapYear y then 29 else 28)
  else if m = 4 || m = 6 || m = 9 || m = 11 then 30
  else 31

/-- Whether `y-m-d` is a real calendar date (with the `strptime` year range
1..9999). -/
def validYMD (y m d : Nat) : Bool :=
  1 ≤ y && y ≤ 9999 && 1 ≤ m && m ≤ 12 && 1 ≤ d && d ≤ daysInMonth y m

/-- Day count of a proleptic-Gregorian civil date (days since 1970-01-01),
used so that datetime comparison and UTC-offset arithmetic are exact. -/
def daysFromCivil (y m d : Nat) : Int :=
  let yi : Int := if m ≤ 2 then (y : Int) - 1 else (y : Int)
  let era : Int := yi / 400
  let yoe : Int := yi - era * 400
  let mp : Int := ((m : Int) + 9) % 12
  let doy : Int := (153 * mp + 2) / 5 + (d : Int) - 1
  let doe : Int := yoe * 365 + yoe / 4 - yoe / 100 + doy
  era * 146097 + doe - 719468

/-- Split a char list on a separator character. -/
def splitOnChar (sep : Char) (l : List Char) : List (List Char) :=
  match l with
  | [] => [[]]
  | c :: rest =>
    let r := splitOnChar sep rest
    if c = sep then [] :: r
    else match r with
      | [] => [[c]]
      | h :: t => (c :: h) :: t

/-- A digit group of width at most `w` (strptime numeric directives accept
1 to `w` digits). -/
def parseGroup (w : Nat) (l : List Char) : Option Nat :=
  if l.length ≤ w then parseDigits l else none

/-- Python `datetime.strptime(value, "%Y-%m-%d")`: three dash-separated
digit groups forming a real date. -/
def parseYMD (s : String) : Option (Nat × Nat × Nat) :=
  match splitOnChar '-' s.toList with
  | [ys, ms, ds] =>
    match parseGroup 4 ys, parseGroup 2 ms, parseGroup 2 ds with
    | some y, some m, some d => if validYMD y m d then some (y, m, d) else none
    | _, _, _ => none
  | _ => none

/-- Python `datetime.strptime(value, "%m/%d/%Y")`. -/
def parseMDY (s : String) : Option (Nat × Nat × Nat) :=
  match splitOnChar '/' s.toList with
  | [ms, ds, ys] =>
    match parseGroup 4 ys, parseGroup 2 ms, parseGroup 2 ds with
    | some y, some m, some d => if validYMD y m d then some (y, m, d) else none
    | _, _, _ => none
  | _ => none

/-- Zero-pad a natural number to `w` digits (strftime numeric output). -/
def padNum (w : Nat) (n : Nat) : String :=
  let s := toString n
  String.mk (List.replicate (w - s.length) '0') ++ s

/-- Python `dt.strftime("%Y-%m-%d")`. -/
def formatYMD (y m d : Nat) : String :=
  padNum 4 y ++ "-" ++ padNum 2 m ++ "-" ++ padNum 2 d

/-- A parsed Python `datetime`: calendar fields, microseconds, and an
optional UTC offset in minutes (`None` for a naive datetime). -/
structure PyDateTime where
  year : Nat
  month : Nat
  day : Nat
  hour : Nat
  minute : Nat
  second : Nat
  micro : Nat
  off : Option Int
deriving DecidableEq, Repr

/-- Naive value of a datetime in microseconds since the epoch, ignoring the
offset. -/
def PyDateTime.naiveMicros (t : PyDateTime) : Int :=
  daysFromCivil t.year t.month t.day * 86400000000
    + ((t.hour * 3600 + t.minute * 60 + t.second : Nat) : Int) * 1000000
    + (t.micro : Int)

/-- Instant of a datetime used for comparison: UTC microseconds, a naive
datetime being read at offset 0.  Python raises `TypeError` when comparing
naive with aware datetimes; theorems about the watermark therefore carry an
awareness-homogeneity hypothesis so that this total comparison coincides
with the source. -/
def PyDateTime.utcMicros (t : PyDateTime) : Int :=
  t.naiveMicros - t.off.getD 0 * 60000000

/-- Python `dt.isoformat()` (microseconds printed only when nonzero,
offset as `±HH:MM`). -/
def PyDateTime.isoformat (t : PyDateTime) : String :=
  padNum 4 t.year ++ "-" ++ padNum 2 t.month ++ "-" ++ padNum 2 t.day
    ++ "T" ++ padNum 2 t.hour ++ ":" ++ padNum 2 t.minute ++ ":" ++ padNum 2 t.second
    ++ (if t.micro = 0 then "" else "." ++ padNum 6 t.micro)
    ++ (match t.off with
        | none => ""
        | some o =>
          (if o < 0 then "-" else "+")
            ++ padNum 2 (o.natAbs / 60) ++ ":" ++ padNum 2 (o.natAbs % 60))

/-- Python `value.replace('Z', '+00:00')` (all occurrences). -/
def pyReplaceZ (s : String) : String :=
  String.mk (s.toList.flatMap fun c =>
    if c = 'Z' then ['+', '0', '0', ':', '0', '0'] else [c])

/-- Exactly-two-digit group. -/
def parse2 (l : List Char) : Option Nat :=
  if l.length = 2 then parseDigits l else none

/-- Time-of-day part `HH:MM[:SS[.fff|.ffffff]]`, as accepted by
`fromisoformat` (CPython 3.10). -/
def parseIsoTime (l : List Char) : Option (Nat × Nat × Nat × Nat) :=
  match splitOnChar ':' l with
  | [hs, ms] =>
    match parse2 hs, parse2 ms with
    | some h, some m => if h ≤ 23 && m ≤ 59 then some (h, m, 0, 0) else none
    | _, _ => none
  | [hs, ms, ss] =>
    let secPart := splitOnChar '.' ss
    match secPart with
    | [sd] =>
      match parse2 hs, parse2 ms, parse2 sd with
      | some h, some m, some s =>
        if h ≤ 23 && m ≤ 59 && s ≤ 59 then some (h, m, s, 0) else none
      | _, _, _ => none
    | [sd, fd] =>
      match parse2 hs, parse2 ms, parse2 sd, parseDigits fd with
      | some h, some m, some s, some f =>
        if h ≤ 23 && m ≤ 59 && s ≤ 59 && (fd.length = 3 || fd.length = 6) then
          some (h, m, s, if fd.length = 3 then f * 1000 else f)
        else none
      | _, _, _, _ => none
    | _ => none
  | _ => none

/-- Python `datetime.fromisoformat` (CPython 3.10 subset): `YYYY-MM-DD`,
optionally a one-character separator plus `HH:MM[:SS[.fff|.ffffff]]`,
optionally a `±HH:MM` offset. -/
def parseIsoDatetime (s : String) : Option PyDateTime :=
  let l := s.toList
  let datePart := l.take 10
  let dateOk :=
    match splitOnChar '-' datePart with
    | [ys, ms, ds] =>
      match parseDigits ys, parseDigits ms, parseDigits ds with
      | some y, some m, some d =>
        if ys.length = 4 && ms.length = 2 && ds.length = 2 && validYMD y m d then
          some (y, m, d)
        else none
      | _, _, _ => none
    | _ => none
  match dateOk with
  | none => none
  | some (y, m, d) =>
    match l.drop 10 with
    | [] => some ⟨y, m, d, 0, 0, 0, 0, none⟩
    | _ :: timeChars =>
      let withOff (tl : List Char) (off : Option Int) : Option PyDateTime :=
        (parseIsoTime tl).map fun (h, mi, s, f) => ⟨y, m, d, h, mi, s, f, off⟩
      let offIdx := timeChars.findIdx fun c => c = '+' || c = '-'
      if offIdx < timeChars.length then
        let tl := timeChars.take offIdx
        let sign := timeChars.get? offIdx
        let oc := timeChars.drop (offIdx + 1)
        match splitOnChar ':' oc with
        | [oh, om] =>
          match parse2 oh, parse2 om with
          | some h, some mm =>
            if h ≤ 23 && mm ≤ 59 then
              let mins : Int := (h * 60 + mm : Nat)
              withOff tl (some (if sign = some '-' then -mins else mins))
            else none
          | _, _ => none
        | _ => none
      else withOff timeChars none

/-! Entity and validation layer (`src/etl/schemas.py`). -/

/-- Validated patient entity (`Patient` model). `id` is `Optional[Any]`;
`vnull` stands for Python `None`. -/
structure Patient where
  name : String
  dob : String
  gender : String
  address : String
  email : String
  phone : String
  sex : String
  id : RawValue
deriving DecidableEq, Repr

/-- Validated device reading entity (`DeviceReading` model). -/
structure DeviceReading where
  patient_id : Option Int
  timestamp : String
  glucose : Option Rat
  systolic_bp : Option Int
  diastolic_bp : Option Int
  weight : Option Rat
  reading_id : RawValue
deriving DecidableEq, Repr

/-- Structured error record (`ErrorRecord` model); `reference` and
`original_value` are `Any`, with `vnull` for Python `None`. -/
structure ErrorRecord where
  reference : RawValue
  field_name : Option String
  error_type : String
  case_description : String
  original_value : RawValue
  source_table : Option String
deriving DecidableEq, Repr

/-- Pydantic error kinds reachable for these models over the scalar value
domain (other pydantic v2 kinds such as `bool_parsing` require input kinds
the extraction layer cannot produce). -/
inductive PErrKind where
  | missing
  | stringType
  | intParsing
  | floatParsing
  | intFromFloat
  | valueError
deriving DecidableEq, Repr

/-- The first entry of `e.errors()`: failing field, pydantic error kind
(`type`), and message (`msg`). -/
structure PErr where
  field : String
  kind : PErrKind
  msg : String
deriving DecidableEq, Repr

/-- Required `str` field: pydantic v2 rejects missing values and non-string
input (no int/float-to-str coercion in smart mode). -/
def reqStr (field : String) (v : Option RawValue) : Except PErr String :=
  match v with
  | none => .error ⟨field, .missing, "Field required"⟩
  | some (.vstr s) => .ok s
  | some _ => .error ⟨field, .stringType, "Input should be a valid string"⟩

/-- `Optional[int]` field: `None`/missing pass, ints pass, integral floats
pass (`int_from_float` otherwise), strings are parsed as integer literals
(`int_parsing` otherwise). -/
def optIntField (field : String) (v : Option RawValue) : Except PErr (Option Int) :=
  match v with
  | none => .ok none
  | some .vnull => .ok none
  | some (.vint n) => .ok (some n)
  | some (.vrat q) =>
    if q.den = 1 then .ok (some q.num)
    else .error ⟨field, .intFromFloat,
      "Input should be a valid integer, got a number with a fractional part"⟩
  | some (.vstr s) =>
    match parseIntStr s with
    | some n => .ok (some n)
    | none => .error ⟨field, .intParsing,
        "Input should be a valid integer, unable to parse string as an integer"⟩

/-- `Optional[float]` field. -/
def optFloatField (field : String) (v : Option RawValue) : Except PErr (Option Rat) :=
  match v with
  | none => .ok none
  | some .vnull => .ok none
  | some (.vint n) => .ok (some (n : Rat))
  | some (.vrat q) => .ok (some q)
  | some (.vstr s) =>
    match parseFloatStr s with
    | some q => .ok (some q)
    | none => .error ⟨field, .floatParsing,
        "Input should be a valid number, unable to parse string as a number"⟩

/-- Custom range validator `0 < value < hi` on an optional numeric field
(absent values pass).  `msg` is the full pydantic message, including the
`Value error, ` prefix pydantic v2 puts on `ValueError` raised by a
validator. -/
def rangeCheck {α : Type} [LinearOrder α] [OfNat α 0] (field : String)
    (v : Option α) (hi : α) (msg : String) : Except PErr (Option α) :=
  match v with
  | none => .ok none
  | some x =>
    if 0 < x ∧ x < hi then .ok (some x)
    else .error ⟨field, .valueError, msg⟩

/-- Python `s.lower().capitalize()` (the `gender`/`sex` normalizer). -/
def capLower (s : String) : String :=
  match s.toList with
  | [] => ""
  | c :: cs => String.mk (c.toLower.toUpper :: cs.map Char.toLower)

/-- The `dob` validator: accept `%Y-%m-%d` unchanged, else reparse as
`%m/%d/%Y` and reformat. -/
def validateDob (s : String) : Option String :=
  match parseYMD s with
  | some _ => some s
  | none =>
    match parseMDY s with
    | some (y, m, d) => some (formatYMD y m d)
    | none => none

/-- The email validator's regex `[^@]+@[^@]+\.[^@]+` under `re.match`:
scan past the first `@` looking for a `.` with a non-`@` char on each side,
no `@` in between. -/
def emailDotScan (seen : Bool) : List Char → Bool
  | [] => false
  | '@' :: _ => false
  | '.' :: rest =>
    (seen && (match rest with
              | b :: _ => decide (b ≠ '@')
              | [] => false))
      || emailDotScan true rest
  | _ :: rest => emailDotScan true rest

/-- Whether the email regex matches at the start of `s`. -/
def emailOk (s : String) : Bool :=
  let l := s.toList
  let before := l.takeWhile fun c => c ≠ '@'
  match l.drop before.length with
  | '@' :: after => before ≠ [] && emailDotScan false after
  | _ => false

/-- The phone validator's regex `^[0-9\s\-\(\)]+$` as a full match
(newlines are themselves in the class, so the `$`-before-newline subtlety
changes nothing). -/
def phoneOk (s : String) : Bool :=
  s.toList ≠ [] && s.toList.all fun c =>
    c.isDigit || c.isWhitespace || c = '-' || c = '(' || c = ')'

/-- The `validate_dob` field validator as an `Except` step. -/
def dobValidator (s : String) : Except PErr String :=
  match validateDob s with
  | some s' => .ok s'
  | none => .error ⟨"dob", .valueError,
      "Value error, Invalid date format. Expected YYYY-MM-DD or MM/DD/YYYY."⟩

/-- The `validate_email` field validator as an `Except` step. -/
def emailValidator (s : String) : Except PErr String :=
  if emailOk s then .ok s
  else .error ⟨"email", .valueError, "Value error, Invalid email format."⟩

/-- The `validate_phone` field validator as an `Except` step
(`return value.strip()`). -/
def phoneValidator (s : String) : Except PErr String :=
  if phoneOk s then .ok (String.mk (stripL s.toList))
  else .error ⟨"phone", .valueError, "Value error, Invalid phone format."⟩

/-- The `validate_timestamp` field validator as an `Except` step. -/
def tsValidator (s : String) : Except PErr String :=
  if (parseIsoDatetime (pyReplaceZ s)).isSome then .ok s
  else .error ⟨"timestamp", .valueError,
    "Value error, Invalid timestamp format. Expected ISO format (e.g., YYYY-MM-DDTHH:MM:SSZ)."⟩

/-- Pydantic validation of the `Patient` model: fields in declaration
order, first failing field reported (`e.errors()[0]`). -/
def patientValidate (r : RawRecord) : Except PErr Patient := do
  let name ← reqStr "name" (r.get "name")
  let dobRaw ← reqStr "dob" (r.get "dob")
  let dob ← dobValidator dobRaw
  let gender ← reqStr "gender" (r.get "gender")
  let address ← reqStr "address" (r.get "address")
  let emailRaw ← reqStr "email" (r.get "email")
  let email ← emailValidator emailRaw
  let phoneRaw ← reqStr "phone" (r.get "phone")
  let phone ← phoneValidator phoneRaw
  let sex ← reqStr "sex" (r.get "sex")
  .ok ⟨name, dob, capLower gender, address, email, phone, capLower sex,
       (r.get "id").getD .vnull⟩

/-- Pydantic validation of the `DeviceReading` model, fields in declaration
order. -/
def deviceValidate (r : RawRecord) : Except PErr DeviceReading := do
  let pid ← optIntField "patient_id" (r.get "patient_id")
  let tsRaw ← reqStr "timestamp" (r.get "timestamp")
  let ts ← tsValidator tsRaw
  let gl ← optFloatField "glucose" (r.get "glucose")
  let gl ← rangeCheck "glucose" gl 1000
    "Value error, Glucose value out of plausible range (0-1000)."
  let sys ← optIntField "systolic_bp" (r.get "systolic_bp")
  let sys ← rangeCheck "systolic_bp" sys 300
    "Value error, systolic_bp value out of plausible range (0-300)."
  let dia ← optIntField "diastolic_bp" (r.get "diastolic_bp")
  let dia ← rangeCheck "diastolic_bp" dia 300
    "Value error, diastolic_bp value out of plausible range (0-300)."
  let w ← optFloatField "weight" (r.get "weight")
  let w ← rangeCheck "weight" w 1000
    "Value error, Weight value out of plausible range (0-1000 lbs)."
  .ok ⟨pid, ts, gl, sys, dia, w, (r.get "reading_id").getD .vnull⟩

/-! Record transformer (`src/etl/transformation.py`). -/

/-- Error classification in `transform_patient`: `"INVALID_FORMAT" if
"format" in first_error['msg'].lower() else "VALIDATION_ERROR"`. -/
def classifyPatientError (e : PErr) : String :=
  if strHas (lowerStr e.msg) "format" then "INVALID_FORMAT" else "VALIDATION_ERROR"

/-- The `error_type` chain of `transform_device_reading`'s
`ValidationError` handler.  The pydantic-kind lists are restricted to the
kinds reachable over the scalar value domain (`bool_parsing`,
`datetime_parsing`, `finite_number`, `assertion_error`, `less_than` etc.
cannot arise from these models on scalar inputs). -/
def classifyReadingError (e : PErr) : String :=
  let m := lowerStr e.msg
  if strHas m "out of plausible range" then "VALUE_ERROR"
  else if strHas m "invalid date format" || strHas m "invalid timestamp format"
      || strHas m "invalid email format" || strHas m "invalid phone format" then
    "INVALID_FORMAT"
  else if e.kind = .missing then "MISSING_VALUE"
  else if e.kind = .intParsing || e.kind = .floatParsing || e.kind = .stringType then
    "INVALID_TYPE"
  else if e.kind = .valueError then "VALUE_ERROR"
  else if strHas m "value is not a valid float" || strHas m "value is not a valid integer"
      || strHas m "input should be a valid number"
      || strHas m "input should be a valid integer" then
    "INVALID_TYPE"
  else if strHas m "field required" || strHas m "missing" then "MISSING_VALUE"
  else "INVALID_FORMAT"

/-- `transform_patient`: validate, backfill a missing `id` with the record
index, or convert the first validation failure into an `ErrorRecord`.
Both return paths of the source produce exactly one of (entity, error);
the `except Exception` fallback (`TRANSFORMATION_ERROR`) is unreachable
over the scalar value domain, where model construction only raises
`ValidationError`. -/
def transformPatient (r : RawRecord) (i : Nat) : Option Patient × Option ErrorRecord :=
  let ref := (r.get "id").getD (.vint i)
  match patientValidate r with
  | .ok p => (some (if p.id = .vnull then { p with id := .vint i } else p), none)
  | .error e =>
    (none, some ⟨ref, some e.field, classifyPatientError e, e.msg,
      (r.get e.field).getD .vnull, some "patients"⟩)

/-- One step of the string-coercion loop at the top of
`transform_device_reading`, for one field name. -/
def coerceField (r : RawRecord) (f : String) : RawRecord :=
  match r.get f with
  | some (.vstr s) =>
    if s = "" then r.set f .vnull
    else if s.toList.contains '.' then
      match parseFloatStr s with
      | some q => r.set f (.vrat q)
      | none => r
    else
      match parseIntStr s with
      | some n => r.set f (.vint n)
      | none => r
  | _ => r

/-- The in-place numeric-string coercion over `['glucose', 'systolic_bp',
'diastolic_bp', 'weight']`, mutating the caller's dict. -/
def coerceNumericStrings (r : RawRecord) : RawRecord :=
  ["glucose", "systolic_bp", "diastolic_bp", "weight"].foldl coerceField r

/-- Result of `transform_device_reading`: the mutated caller dict plus the
`(entity | None, error | None)` pair. -/
structure DevResult where
  record : RawRecord
  entity : Option DeviceReading
  err : Option ErrorRecord
deriving DecidableEq, Repr

/-- `transform_device_reading`: coerce numeric strings in place, validate,
backfill `reading_id`, then apply the blood-pressure cross-field check. -/
def transformDeviceReading (r : RawRecord) (i : Nat) : DevResult :=
  let ref := (r.get "reading_id").getD (.vint i)
  let r' := coerceNumericStrings r
  match deviceValidate r' with
  | .error e =>
    ⟨r', none, some ⟨ref, some e.field, classifyReadingError e, e.msg,
      (r'.get e.field).getD .vnull, some "device_readings"⟩⟩
  | .ok d0 =>
    let d := if d0.reading_id = .vnull then { d0 with reading_id := ref } else d0
    match d.systolic_bp, d.diastolic_bp with
    | some s, some dia =>
      if dia ≥ s then
        ⟨r', none, some ⟨ref, some "blood_pressure", "LOGICAL_INCONSISTENCY",
          "Diastolic BP is greater than or equal to Systolic BP.",
          .vstr ("Systolic: " ++ toString s ++ ", Diastolic: " ++ toString dia),
          some "device_readings"⟩⟩
      else ⟨r', some d, none⟩
    | _, _ => ⟨r', some d, none⟩

/-! Pipeline orchestrator (`pipeline_transform`). -/

/-- The watermark dict `last_timestamp_dict`; the key is the reading's
`patient_id`, with `none` standing for the `"global"` sentinel. -/
abbrev WMap := List (Option Int × PyDateTime)

/-- Dict read on the watermark map. -/
def wmGet (m : WMap) (k : Option Int) : Option PyDateTime :=
  match m with
  | [] => none
  | (k', t) :: rest => if k' = k then some t else wmGet rest k

/-- Dict write on the watermark map. -/
def wmSet (m : WMap) (k : Option Int) (t : PyDateTime) : WMap :=
  match m with
  | [] => [(k, t)]
  | (k', t') :: rest => if k' = k then (k, t) :: rest else (k', t') :: wmSet rest k t

/-- Rendering of the temporal key in the inconsistency message
(`f"...for key {patient_key_for_ts_check}"`). -/
def keyStr (k : Option Int) : String :=
  match k with
  | some n => toString n
  | none => "global"

/-- The `TIMESTAMP_ORDER_INCONSISTENCY` error record built by the
orchestrator. -/
def tsOrderError (d : DeviceReading) (rec : RawRecord) (i : Nat)
    (cts : String) (lastT : PyDateTime) (k : Option Int) : ErrorRecord :=
  ⟨(if d.reading_id ≠ .vnull then d.reading_id else (rec.get "reading_id").getD (.vint i)),
   some "timestamp", "TIMESTAMP_ORDER_INCONSISTENCY",
   "Timestamp " ++ cts ++ " is earlier than previous " ++ lastT.isoformat
     ++ " for key " ++ keyStr k,
   .vstr cts, some "device_readings"⟩

/-- Append each error unless an equal one is already present
(`if e not in all_error_records`). -/
def appendDedup (acc : List ErrorRecord) (es : List ErrorRecord) : List ErrorRecord :=
  es.foldl (fun a e => if a.contains e then a else a ++ [e]) acc

/-- The patient loop of `pipeline_transform`. -/
def patGo : Nat → List RawRecord → List Patient → List ErrorRecord →
    List Patient × List ErrorRecord
  | _, [], ps, es => (ps, es)
  | i, rec :: rest, ps, es =>
    let (p, e) := transformPatient rec i
    patGo (i + 1) rest (ps ++ p.toList) (es ++ e.toList)

/-- The device-reading loop of `pipeline_transform`: per-record transform,
watermark bookkeeping, and deduplicated error accumulation.  Returns the
final watermark map as well so the temporal-state invariant can be
stated. -/
def devGo : Nat → List RawRecord → WMap → List DeviceReading → List ErrorRecord →
    List DeviceReading × List ErrorRecord × WMap
  | _, [], wm, rds, errs => (rds, errs, wm)
  | i, rec :: rest, wm, rds, errs =>
    let res := transformDeviceReading rec i
    let cur0 : List ErrorRecord := res.err.toList
    match res.entity with
    | none => devGo (i + 1) rest wm rds (appendDedup errs cur0)
    | some d =>
      match parseIsoDatetime (pyReplaceZ d.timestamp) with
      | none =>
        -- `except ValueError: pass` — unreachable after validation.
        devGo (i + 1) rest wm (rds ++ [d]) (appendDedup errs cur0)
      | some ct =>
        let k := d.patient_id
        match wmGet wm k with
        | none =>
          devGo (i + 1) rest (wmSet wm k ct) (rds ++ [d]) (appendDedup errs cur0)
        | some lt =>
          let cur1 :=
            if ct.utcMicros < lt.utcMicros then
              cur0 ++ [tsOrderError d rec i d.timestamp lt k]
            else cur0
          let wm' := if ct.utcMicros ≥ lt.utcMicros then wmSet wm k ct else wm
          devGo (i + 1) rest wm' (rds ++ [d]) (appendDedup errs cur1)

/-- `pipeline_transform(raw_patient_data, raw_device_data)`. -/
def pipelineTransform (rawPatients rawReadings : List RawRecord) :
    List Patient × List DeviceReading × List ErrorRecord :=
  let (vp, perrs) := patGo 0 rawPatients [] []
  let (vr, errs, _) := devGo 0 rawReadings [] [] perrs
  (vp, vr, errs)

/-! Batch loader (`src/etl/loading.py`).

The database connection is modelled with standard transaction semantics:
`pending` is the state seen inside the open transaction, `commit` publishes
it, and `conn.rollback()` resets `pending` to `committed` — the whole
not-yet-committed transaction is discarded, which is exactly what the
per-record `except` handlers of `load_data` invoke. -/

/-- A row of the `patients` table, as bound by the insert statement. -/
structure PatientRow where
  id : RawValue
  name : String
  dob : String
  gender : String
  address : String
  email : String
  phone : String
  sex : String
deriving DecidableEq, Repr

/-- Database state.  Only the `patients` table can ever be written by
`load_data`: every iteration of its readings loop evaluates `reading.id`,
an attribute the `DeviceReading` model does not define (its field is
`reading_id`), so the reading insert raises before reaching SQL. -/
structure DB where
  patients : List PatientRow
deriving DecidableEq, Repr

/-- A psycopg2 connection: committed state plus the open transaction. -/
structure Conn where
  committed : DB
  pending : DB
deriving DecidableEq, Repr

/-- `conn.rollback()`: discard the whole uncommitted transaction. -/
def Conn.rollback (c : Conn) : Conn := ⟨c.committed, c.committed⟩

/-- `conn.commit()`: publish the open transaction. -/
def Conn.commit (c : Conn) : Conn := ⟨c.pending, c.pending⟩

/-- Text form a scalar takes in the `VARCHAR` primary-key column
(psycopg2 adaptation followed by the cast to `varchar`); `none` is SQL
`NULL`.  Integral floats render with a trailing `.0` as in Python, so an
int and a float key never collide. -/
def sqlKey : RawValue → Option String
  | .vnull => none
  | .vint n => some (toString n)
  | .vrat q => some (if q.den = 1 then toString q.num ++ ".0" else toString q)
  | .vstr s => some s

/-- A structured load-error descriptor from the `db_loading_errors` list. -/
structure LoadErr where
  type : String
  reference : Option RawValue
  description : String
deriving DecidableEq, Repr

/-- Summary dict returned by `load_data`. -/
structure LoadSummary where
  loaded_patients_count : Nat
  loaded_readings_count : Nat
  db_loading_errors : List LoadErr
deriving DecidableEq, Repr

/-- Server-side failure of one patient insert, if any: `NULL` in the
primary key, or a value too long for its `VARCHAR(n)` column, or a `dob`
the `DATE` column cannot parse (the ISO form is the one the pipeline
emits).  These raise `psycopg2.Error`; a plain primary-key conflict does
not, because of `ON CONFLICT (id) DO NOTHING`. -/
def patientInsertFailure (p : Patient) : Option String :=
  match sqlKey p.id with
  | none => some "null value in column \x22id\x22 of relation \x22patients\x22 violates not-null constraint"
  | some k =>
    if k.length > 255 || p.name.length > 255 || p.email.length > 255
        || p.gender.length > 50 || p.phone.length > 50 || p.sex.length > 50 then
      some "value too long for type character varying"
    else if (parseYMD p.dob).isNone then
      some ("invalid input syntax for type date: \x22" ++ p.dob ++ "\x22")
    else none

/-- One iteration of the patient loop of `load_data`: insert-or-ignore,
counting `cur.rowcount > 0`; on `psycopg2.Error` the handler rolls the
whole transaction back and records a `PATIENT_INSERT_ERROR`. -/
def loadPatientStep (st : Nat × List LoadErr × Conn) (p : Patient) :
    Nat × List LoadErr × Conn :=
  let (cnt, errs, c) := st
  match patientInsertFailure p with
  | some desc =>
    (cnt, errs ++ [⟨"PATIENT_INSERT_ERROR", some p.id, desc⟩], c.rollback)
  | none =>
    match sqlKey p.id with
    | none => (cnt, errs, c)
    | some k =>
      if c.pending.patients.any fun row => sqlKey row.id = some k then
        (cnt, errs, c)
      else
        (cnt + 1, errs,
         { c with pending := ⟨c.pending.patients ++
            [⟨p.id, p.name, p.dob, p.gender, p.address, p.email, p.phone, p.sex⟩]⟩ })

/-- `load_data(conn, patients, readings)`.

The patient loop runs to completion.  If the readings list is empty the
final `conn.commit()` publishes the transaction.  Otherwise the first
iteration of the readings loop evaluates `reading.id` while binding the
insert parameters; `DeviceReading` defines `reading_id`, not `id`, so this
raises `AttributeError`, caught by the loop's `except Exception` handler,
which rolls back — and then itself evaluates `reading.id` while building
the error dict, so the same exception escapes to the outer
`except Exception` handler: one more rollback, a single
`LOAD_DATA_UNEXPECTED_ERROR` descriptor, and the final commit is never
executed. -/
def loadData (c : Conn) (patients : List Patient) (readings : List DeviceReading) :
    LoadSummary × Conn :=
  let (cnt, errs, c1) := patients.foldl loadPatientStep (0, [], c)
  match readings with
  | [] => (⟨cnt, 0, errs⟩, c1.commit)
  | _ :: _ =>
    (⟨cnt, 0, errs ++ [⟨"LOAD_DATA_UNEXPECTED_ERROR", none,
        "'DeviceReading' object has no attribute 'id'"⟩]⟩,
     c1.rollback.rollback)

/-! Specification-side definitions, written from the spec's words, to be
compared with the embedded source functions. -/

/-- Error-classification priority order exactly as the spec states it:
range-check messages, then custom format messages, then a missing-field
signal, then type-coercion failures, then `VALUE_ERROR` for anything else
raised by the validation layer. -/
def specReadingClassify (e : PErr) : String :=
  let m := lowerStr e.msg
  if strHas m "out of plausible range" then "VALUE_ERROR"
  else if strHas m "invalid date format" || strHas m "invalid timestamp format"
      || strHas m "invalid email format" || strHas m "invalid phone format" then
    "INVALID_FORMAT"
  else if e.kind = .missing then "MISSING_VALUE"
  else if e.kind = .intParsing || e.kind = .floatParsing || e.kind = .intFromFloat
      || e.kind = .stringType then
    "INVALID_TYPE"
  else "VALUE_ERROR"

/-- Classification of a validation result: the `error_type` the handler
would assign, `none` on success. -/
def errTypeOf {α : Type} (x : Except PErr α) : Option String :=
  match x with
  | .error e => some (classifyReadingError e)
  | .ok _ => none

/-- Spec-side counterpart of `errTypeOf`. -/
def specErrTypeOf {α : Type} (x : Except PErr α) : Option String :=
  match x with
  | .error e => some (specReadingClassify e)
  | .ok _ => none

/-- The coercion described by claim C10 on one value: empty string to
null, a string containing `.` to its decimal parse, any other parseable
string to its integer parse, everything else untouched. -/
def specCoerceValue (v : RawValue) : RawValue :=
  match v with
  | .vstr s =>
    if s = "" then .vnull
    else if s.toList.contains '.' then
      match parseFloatStr s with
      | some q => .vrat q
      | none => v
    else
      match parseIntStr s with
      | some n => .vint n
      | none => v
  | _ => v

/-- The record-level write-back described by claim C10: the four numeric
fields are rewritten by `specCoerceValue`, all other fields untouched. -/
def specCoerceRecord (r : RawRecord) : RawRecord :=
  r.map fun p =>
    if p.1 = "glucose" || p.1 = "systolic_bp" || p.1 = "diastolic_bp" || p.1 = "weight"
    then (p.1, specCoerceValue p.2) else p

/-- Instants (UTC microseconds) of the successfully validated readings with
temporal key `k`, drawn from the raw records starting at ordinal `i` — the
"timestamps seen so far" of the watermark claim. -/
def seenFrom : Nat → List RawRecord → Option Int → List Int
  | _, [], _ => []
  | i, rec :: rest, k =>
    (match (transformDeviceReading rec i).entity with
     | some d =>
       if d.patient_id = k then
         match parseIsoDatetime (pyReplaceZ d.timestamp) with
         | some t => [t.utcMicros]
         | none => []
       else []
     | none => []) ++ seenFrom (i + 1) rest k

/-- Running maximum of an optional current value and a list. -/
def maxCombine (o : Option Int) (l : List Int) : Option Int :=
  l.foldl (fun a x => some (match a with | none => x | some m => max m x)) o

/-- Whether a raw record's timestamp, when it parses, carries a UTC offset.
Python raises `TypeError` on naive-vs-aware datetime comparison, so the
watermark theorems restrict to batches whose timestamps are uniformly
offset-aware, where the embedded total comparison coincides with the
source. -/
def rawTsAware (rec : RawRecord) : Bool :=
  match rec.get "timestamp" with
  | some (.vstr s) =>
    match parseIsoDatetime (pyReplaceZ s) with
    | some t => t.off.isSome
    | none => true
  | _ => true

/-- Awareness homogeneity of a whole batch. -/
def batchAware (rs : List RawRecord) : Bool :=
  rs.all rawTsAware

/-! Concrete instances used by the claims. -/

/-- The spec's end-to-end patient record. -/
def e2ePatientRec : RawRecord :=
  [("id", .vstr "p1"), ("name", .vstr "A"), ("dob", .vstr "1990-01-01"),
   ("gender", .vstr "F"), ("address", .vstr "x"), ("email", .vstr "a@e.com"),
   ("phone", .vstr "1"), ("sex", .vstr "F")]

/-- The spec's end-to-end device-reading record. -/
def e2eReadingRec : RawRecord :=
  [("id", .vstr "r1"), ("patient_id", .vstr "p1"),
   ("timestamp", .vstr "2023-01-01T10:00:00Z"), ("glucose", .vrat 120.5)]

/-- An empty store on a fresh connection. -/
def connEmpty : Conn := ⟨⟨[]⟩, ⟨[]⟩⟩

/-- A loadable patient with id `"p1"`. -/
def patP1 : Patient :=
  ⟨"A", "1990-01-01", "F", "x", "a@e.com", "1", "F", .vstr "p1"⟩

/-- A validated patient whose insert raises server-side: its id exceeds
the `VARCHAR(255)` primary-key column. -/
def patOversize : Patient :=
  ⟨"B", "1990-01-01", "F", "x", "b@e.com", "2", "F",
   .vstr (String.mk (List.replicate 256 'x'))⟩

/-- A validated device reading handed to the loader. -/
def readingR1 : DeviceReading :=
  ⟨none, "2023-01-01T10:00:00Z", some 100, none, none, none, .vstr "r1"⟩

/-- Watermark-scenario raw readings: timestamps 10:00, 09:00, 11:00 on one
key. -/
def wmRec1 : RawRecord :=
  [("reading_id", .vstr "r1"), ("timestamp", .vstr "2023-01-01T10:00:00Z"),
   ("glucose", .vint 100)]

/-- Second watermark record (out of order). -/
def wmRec2 : RawRecord :=
  [("reading_id", .vstr "r2"), ("timestamp", .vstr "2023-01-01T09:00:00Z"),
   ("glucose", .vint 110)]

/-- Third watermark record. -/
def wmRec3 : RawRecord :=
  [("reading_id", .vstr "r3"), ("timestamp", .vstr "2023-01-01T11:00:00Z"),
   ("glucose", .vint 120)]

/-- The validated entity of `wmRec1`. -/
def wmread1 : DeviceReading :=
  ⟨none, "2023-01-01T10:00:00Z", some 100, none, none, none, .vstr "r1"⟩

/-- The validated entity of `wmRec2`. -/
def wmread2 : DeviceReading :=
  ⟨none, "2023-01-01T09:00:00Z", some 110, none, none, none, .vstr "r2"⟩

/-- The validated entity of `wmRec3`. -/
def wmread3 : DeviceReading :=
  ⟨none, "2023-01-01T11:00:00Z", some 120, none, none, none, .vstr "r3"⟩

/-- Parsed instant of `wmRec1`'s timestamp. -/
def wmT1 : PyDateTime := ⟨2023, 1, 1, 10, 0, 0, 0, some 0⟩

/-- Parsed instant of `wmRec2`'s timestamp. -/
def wmT2 : PyDateTime := ⟨2023, 1, 1, 9, 0, 0, 0, some 0⟩

/-- Parsed instant of `wmRec3`'s timestamp. -/
def wmT3 : PyDateTime := ⟨2023, 1, 1, 11, 0, 0, 0, some 0⟩

/-- Base record for the boundary-check claim: a valid timestamp and
nothing else. -/
def boundBase : RawRecord :=
  [("reading_id", .vstr "d"), ("timestamp", .vstr "2023-01-01T12:00:00Z")]

/-- Base record extended with one numeric field. -/
def boundWith (f : String) (v : RawValue) : RawRecord :=
  boundBase ++ [(f, v)]

/-- A record with in-range, inconsistent blood pressure and a valid
timestamp. -/
def bpRec : RawRecord :=
  [("reading_id", .vstr "d8"), ("timestamp", .vstr "2023-01-01T12:00:00Z"),
   ("systolic_bp", .vint 100), ("diastolic_bp", .vint 110)]

/-- A record with in-range, inconsistent blood pressure but no timestamp. -/
def bpNoTsRec : RawRecord :=
  [("systolic_bp", .vint 100), ("diastolic_bp", .vint 110)]

/-- A patient record with no `name` field. -/
def noNameRec : RawRecord :=
  [("id", .vint 5), ("dob", .vstr "1990-01-01"), ("gender", .vstr "Male"),
   ("address", .vstr "5 Test St"), ("email", .vstr "missing@example.com"),
   ("phone", .vstr "3334445555"), ("sex", .vstr "Male")]

/-- A device record whose numeric fields are strings, exercising every
branch of the in-place coercion. -/
def numStrRec : RawRecord :=
  [("reading_id", .vstr "n1"), ("timestamp", .vstr "2023-01-01T12:00:00Z"),
   ("glucose", .vstr "120.5"), ("systolic_bp", .vstr "120"),
   ("diastolic_bp", .vstr ""), ("weight", .vstr "abc")]

/-- Agreement of the source's message-sniffing classifier with the spec's
priority classifier on every error a validation result can carry. -/
def ErrAgrees {α : Type} (x : Except PErr α) : Prop :=
  ∀ e, x = .error e → classifyReadingError e = specReadingClassify e

/-! Helper lemmas. -/

theorem errAgrees_ok {α : Type} (a : α) : ErrAgrees (Except.ok a) := by
  intro e he
  cases he

theorem errAgrees_bind {α β : Type} {x : Except PErr α} {f : α → Except PErr β}
    (hx : ErrAgrees x) (hf : ∀ a, ErrAgrees (f a)) : ErrAgrees (x >>= f) := by
  intro e he
  cases x with
  | error e' =>
    have h : (Except.error e' >>= f : Except PErr β) = Except.error e' := rfl
    rw [h] at he
    injection he with h2
    exact h2 ▸ hx e' rfl
  | ok a =>
    exact hf a e he

theorem agrees_of_kind (f msg : String) (k : PErrKind) (hk : k ≠ .intFromFloat) :
    classifyReadingError ⟨f, k, msg⟩ = specReadingClassify ⟨f, k, msg⟩ := by
  cases k <;> simp only [classifyReadingError, specReadingClassify] <;>
    split_ifs <;> first | rfl | simp_all

theorem agrees_intFromFloat (f : String) :
    classifyReadingError ⟨f, .intFromFloat,
        "Input should be a valid integer, got a number with a fractional part"⟩
      = specReadingClassify ⟨f, .intFromFloat,
        "Input should be a valid integer, got a number with a fractional part"⟩ := by
  rfl

theorem errAgrees_reqStr (f : String) (v : Option RawValue) : ErrAgrees (reqStr f v) := by
  intro e he
  cases v with
  | none =>
    simp only [reqStr] at he
    injection he with h
    exact h ▸ agrees_of_kind f "Field required" .missing (by simp)
  | some w =>
    cases w with
    | vnull =>
      simp only [reqStr] at he
      injection he with h
      exact h ▸ agrees_of_kind f "Input should be a valid string" .stringType (by simp)
    | vint n =>
      simp only [reqStr] at he
      injection he with h
      exact h ▸ agrees_of_kind f "Input should be a valid string" .stringType (by simp)
    | vrat q =>
      simp only [reqStr] at he
      injection he with h
      exact h ▸ agrees_of_kind f "Input should be a valid string" .stringType (by simp)
    | vstr s => cases he

theorem errAgrees_optInt (f : String) (v : Option RawValue) : ErrAgrees (optIntField f v) := by
  intro e he
  cases v with
  | none => cases he
  | some w =>
    cases w with
    | vnull => cases he
    | vint n => cases he
    | vrat q =>
      simp only [optIntField] at he
      by_cases hq : q.den = 1
      · rw [if_pos hq] at he; cases he
      · rw [if_neg hq] at he
        injection he with h
        exact h ▸ agrees_intFromFloat f
    | vstr s =>
      simp only [optIntField] at he
      cases hp : parseIntStr s with
      | some n => rw [hp] at he; cases he
      | none =>
        rw [hp] at he
        injection he with h
        exact h ▸ agrees_of_kind f _ .intParsing (by simp)

theorem errAgrees_optFloat (f : String) (v : Option RawValue) : ErrAgrees (optFloatField f v) := by
  intro e he
  cases v with
  | none => cases he
  | some w =>
    cases w with
    | vnull => cases he
    | vint n => cases he
    | vrat q => cases he
    | vstr s =>
      simp only [optFloatField] at he
      cases hp : parseFloatStr s with
      | some q => rw [hp] at he; cases he
      | none =>
        rw [hp] at he
        injection he with h
        exact h ▸ agrees_of_kind f _ .floatParsing (by simp)

theorem errAgrees_rangeCheck {α : Type} [LinearOrder α] [OfNat α 0]
    (f : String) (v : Option α) (hi : α) (msg : String) :
    ErrAgrees (rangeCheck f v hi msg) := by
  intro e he
  cases v with
  | none => cases he
  | some x =>
    simp only [rangeCheck] at he
    by_cases h : 0 < x ∧ x < hi
    · rw [if_pos h] at he; cases he
    · rw [if_neg h] at he
      injection he with h2
      exact h2 ▸ agrees_of_kind f msg .valueError (by simp)

theorem errAgrees_tsValidator (s : String) : ErrAgrees (tsValidator s) := by
  intro e he
  simp only [tsValidator] at he
  by_cases h : (parseIsoDatetime (pyReplaceZ s)).isSome = true
  · rw [if_pos h] at he; cases he
  · rw [if_neg h] at he
    injection he with h2
    exact h2 ▸ agrees_of_kind _ _ .valueError (by simp)

theorem errAgrees_deviceValidate (r : RawRecord) : ErrAgrees (deviceValidate r) := by
  unfold deviceValidate
  apply errAgrees_bind (errAgrees_optInt _ _); intro pid
  apply errAgrees_bind (errAgrees_reqStr _ _); intro ts
  apply errAgrees_bind (errAgrees_tsValidator _); intro ts2
  apply errAgrees_bind (errAgrees_optFloat _ _); intro gl
  apply errAgrees_bind (errAgrees_rangeCheck _ _ _ _); intro gl2
  apply errAgrees_bind (errAgrees_optInt _ _); intro sys
  apply errAgrees_bind (errAgrees_rangeCheck _ _ _ _); intro sys2
  apply errAgrees_bind (errAgrees_optInt _ _); intro dia
  apply errAgrees_bind (errAgrees_rangeCheck _ _ _ _); intro dia2
  apply errAgrees_bind (errAgrees_optFloat _ _); intro w
  apply errAgrees_bind (errAgrees_rangeCheck _ _ _ _); intro w2
  exact errAgrees_ok _

theorem entity_eq_backfill (r : RawRecord) (i : Nat) (d : DeviceReading)
    (h : (transformDeviceReading r i).entity = some d) :
    ∃ d0 : DeviceReading,
      d = (if d0.reading_id = RawValue.vnull
           then { d0 with reading_id := (r.get "reading_id").getD (.vint i) }
           else d0) := by
  simp only [transformDeviceReading] at h
  rcases hv : deviceValidate (coerceNumericStrings r) with e | d0
  · rw [hv] at h; cases h
  · rw [hv] at h
    refine ⟨d0, ?_⟩
    revert h
    dsimp only
    split <;> intro h
    · split at h
      · cases h
      · injection h with h2; exact h2.symm
    · injection h with h2; exact h2.symm

theorem entity_reference (r : RawRecord) (i : Nat) (d : DeviceReading)
    (h : (transformDeviceReading r i).entity = some d) :
    (if d.reading_id ≠ .vnull then d.reading_id
     else (r.get "reading_id").getD (.vint i)) = d.reading_id := by
  by_cases hn : d.reading_id = .vnull
  · rw [if_neg (by simp [hn])]
    obtain ⟨d0, hd0⟩ := entity_eq_backfill r i d h
    by_cases hb : d0.reading_id = RawValue.vnull
    · rw [hd0, if_pos hb] at hn ⊢
    · rw [hd0, if_neg hb] at hn
      exact absurd hn hb
  · rw [if_pos hn]

theorem wmGet_wmSet (m : WMap) (k : Option Int) (t : PyDateTime) (k' : Option Int) :
    wmGet (wmSet m k t) k' = if k = k' then some t else wmGet m k' := by
  induction m with
  | nil => simp [wmSet, wmGet]
  | cons p rest ih =>
    obtain ⟨k1, t1⟩ := p
    by_cases h1 : k1 = k
    · subst h1
      simp only [wmSet, if_pos rfl, wmGet]
      by_cases h2 : k1 = k' <;> simp [h2]
    · simp only [wmSet, if_neg h1, wmGet, ih]
      by_cases h2 : k1 = k' <;> by_cases h3 : k = k' <;> simp_all

theorem devGo_wm (rs : List RawRecord) : ∀ (i : Nat) (wm : WMap)
    (rds : List DeviceReading) (errs : List ErrorRecord) (k : Option Int),
    (wmGet (devGo i rs wm rds errs).2.2 k).map PyDateTime.utcMicros
      = maxCombine ((wmGet wm k).map PyDateTime.utcMicros) (seenFrom i rs k) := by
  induction rs with
  | nil => intro i wm rds errs k; simp [devGo, seenFrom, maxCombine]
  | cons rec rest ih =>
    intro i wm rds errs k
    cases hE : (transformDeviceReading rec i).entity with
    | none =>
      simp only [devGo, hE, seenFrom]
      rw [ih]
      simp
    | some d =>
      cases hp : parseIsoDatetime (pyReplaceZ d.timestamp) with
      | none =>
        simp only [devGo, hE, hp, seenFrom]
        rw [ih]
        by_cases hk : d.patient_id = k <;> simp [hk]
      | some ct =>
        cases hw : wmGet wm d.patient_id with
        | none =>
          simp only [devGo, hE, hp, hw, seenFrom]
          rw [ih]
          by_cases hk : d.patient_id = k
          · subst hk
            rw [wmGet_wmSet, if_pos rfl, hw]
            simp [maxCombine]
          · rw [wmGet_wmSet, if_neg hk]
            simp [hk]
        | some lt =>
          by_cases hge : ct.utcMicros ≥ lt.utcMicros
          · simp only [devGo, hE, hp, hw, if_pos hge, seenFrom]
            rw [ih]
            by_cases hk : d.patient_id = k
            · subst hk
              rw [wmGet_wmSet, if_pos rfl, hw]
              simp [maxCombine, max_eq_right hge]
            · rw [wmGet_wmSet, if_neg hk]
              simp [hk]
          · simp only [devGo, hE, hp, hw, if_neg hge, seenFrom]
            rw [ih]
            by_cases hk : d.patient_id = k
            · subst hk
              rw [hw]
              simp [maxCombine, max_eq_left (le_of_lt (not_le.mp hge))]
            · simp [hk]

theorem record_component (r : RawRecord) (i : Nat) :
    (transformDeviceReading r i).record = coerceNumericStrings r := by
  simp only [transformDeviceReading]
  rcases h : deviceValidate (coerceNumericStrings r) with e | d0
  · rfl
  · dsimp only
    split
    · split <;> rfl
    · rfl

theorem get_none_not_mem (r : RawRecord) (f : String) (h : r.get f = none) :
    ∀ p ∈ r, p.1 ≠ f := by
  induction r with
  | nil => intro p hp; cases hp
  | cons q rest ih =>
    intro p hp
    simp only [RawRecord.get] at h
    rcases List.mem_cons.mp hp with hp | hp
    · subst hp
      intro hf
      rw [if_pos hf] at h
      cases h
    · by_cases hq : q.1 = f
      · rw [if_pos hq] at h; cases h
      · rw [if_neg hq] at h
        exact ih h p hp

theorem get_some_unique (r : RawRecord) (f : String) (v : RawValue)
    (hnd : (r.map Prod.fst).Nodup) (h : r.get f = some v) :
    ∀ p ∈ r, p.1 = f → p.2 = v := by
  induction r with
  | nil => intro p hp; cases hp
  | cons q rest ih =>
    intro p hp hpf
    simp only [List.map_cons, List.nodup_cons] at hnd
    simp only [RawRecord.get] at h
    rcases List.mem_cons.mp hp with hp | hp
    · subst hp
      rw [if_pos hpf] at h
      exact Option.some.inj h
    · by_cases hq : q.1 = f
      · exfalso
        apply hnd.1
        rw [hq, ← hpf]
        exact List.mem_map_of_mem Prod.fst hp
      · rw [if_neg hq] at h
        exact ih hnd.2 h p hp hpf

theorem set_eq_specmap (r : RawRecord) (f : String) (v : RawValue)
    (huniq : ∀ p ∈ r, p.1 = f → p.2 = v) (w : RawValue)
    (hwv : w = specCoerceValue v) :
    r.set f w = r.map fun p => if p.1 = f then (f, specCoerceValue p.2) else p := by
  apply List.map_congr_left
  intro p hp
  by_cases hpf : p.1 = f
  · rw [if_pos hpf, if_pos hpf, huniq p hp hpf, hwv]
  · rw [if_neg hpf, if_neg hpf]

theorem id_eq_specmap (r : RawRecord) (f : String) (v : RawValue)
    (huniq : ∀ p ∈ r, p.1 = f → p.2 = v)
    (hvv : specCoerceValue v = v) :
    r = r.map fun p => if p.1 = f then (f, specCoerceValue p.2) else p := by
  conv_lhs => rw [← List.map_id r]
  apply List.map_congr_left
  intro p hp
  by_cases hpf : p.1 = f
  · simp only [id, if_pos hpf]
    have hp2 : p.2 = v := huniq p hp hpf
    rw [hp2, hvv, ← hpf, ← hp2]
  · simp only [id, if_neg hpf]

theorem coerceField_spec (r : RawRecord) (f : String)
    (hnd : (r.map Prod.fst).Nodup) :
    coerceField r f = r.map fun p => if p.1 = f then (f, specCoerceValue p.2) else p := by
  cases hv : r.get f with
  | none =>
    have hne := get_none_not_mem r f hv
    simp only [coerceField, hv]
    symm
    conv_rhs => rw [← List.map_id r]
    apply List.map_congr_left
    intro p hp
    rw [if_neg (hne p hp)]
    rfl
  | some v =>
    have huniq := get_some_unique r f v hnd hv
    cases v with
    | vnull =>
      simp only [coerceField, hv]
      exact id_eq_specmap r f .vnull huniq rfl
    | vint n =>
      simp only [coerceField, hv]
      exact id_eq_specmap r f (.vint n) huniq rfl
    | vrat q =>
      simp only [coerceField, hv]
      exact id_eq_specmap r f (.vrat q) huniq rfl
    | vstr s =>
      simp only [coerceField, hv]
      by_cases hs : s = ""
      · rw [if_pos hs]
        apply set_eq_specmap r f (.vstr s) huniq
        simp [specCoerceValue, hs]
      · rw [if_neg hs]
        by_cases hdot : s.toList.contains '.'
        · rw [if_pos hdot]
          cases hq : parseFloatStr s with
          | some q =>
            apply set_eq_specmap r f (.vstr s) huniq
            simp only [specCoerceValue]
            rw [if_neg hs, if_pos hdot, hq]
          | none =>
            apply id_eq_specmap r f (.vstr s) huniq
            simp only [specCoerceValue]
            rw [if_neg hs, if_pos hdot, hq]
        · rw [if_neg hdot]
          cases hn : parseIntStr s with
          | some n =>
            apply set_eq_specmap r f (.vstr s) huniq
            simp only [specCoerceValue]
            rw [if_neg hs, if_neg hdot, hn]
          | none =>
            apply id_eq_specmap r f (.vstr s) huniq
            simp only [specCoerceValue]
            rw [if_neg hs, if_neg hdot, hn]

theorem keys_specmap (r : RawRecord) (f : String) :
    ((r.map fun p => if p.1 = f then (f, specCoerceValue p.2) else p).map Prod.fst)
      = r.map Prod.fst := by
  rw [List.map_map]
  apply List.map_congr_left
  intro p hp
  by_cases hpf : p.1 = f
  · simp [Function.comp, hpf]
  · simp [Function.comp, hpf]

theorem coerce_spec (r : RawRecord) (hnd : (r.map Prod.fst).Nodup) :
    coerceNumericStrings r = specCoerceRecord r := by
  unfold coerceNumericStrings
  simp only [List.foldl_cons, List.foldl_nil]
  rw [coerceField_spec r "glucose" hnd]
  rw [coerceField_spec _ "systolic_bp" (by rw [keys_specmap]; exact hnd)]
  rw [coerceField_spec _ "diastolic_bp"
    (by rw [keys_specmap, keys_specmap]; exact hnd)]
  rw [coerceField_spec _ "weight"
    (by rw [keys_specmap, keys_specmap, keys_specmap]; exact hnd)]
  unfold specCoerceRecord
  rw [List.map_map, List.map_map, List.map_map]
  apply List.map_congr_left
  intro p hp
  simp only [Function.comp]
  by_cases h1 : p.1 = "glucose"
  · simp [h1]
  · by_cases h2 : p.1 = "systolic_bp"
    · simp [h1, h2]
    · by_cases h3 : p.1 = "diastolic_bp"
      · simp [h1, h2, h3]
      · by_cases h4 : p.1 = "weight"
        · simp [h1, h2, h3, h4]
        · simp [h1, h2, h3, h4]

set_option maxRecDepth 8000

/-! Claim theorems. -/

/-- C1.  The claim says a record-level insert failure must not discard
already-applied, not-yet-committed inserts of prior records in the same
batch.  The code violates it: on a batch of two patients where the second
insert raises (its id exceeds the `VARCHAR(255)` column), the handler's
`conn.rollback()` discards the whole shared transaction, so the first
patient — counted as loaded and free of any load error — is absent from
the committed store after the final commit. -/
theorem claim1_loader_rollback_discards_prior_inserts :
    (loadData connEmpty [patP1, patOversize] []).1.loaded_patients_count = 1
      ∧ (loadData connEmpty [patP1, patOversize] []).1.db_loading_errors.map LoadErr.type
          = ["PATIENT_INSERT_ERROR"]
      ∧ (loadData connEmpty [patP1, patOversize] []).2.committed.patients = [] := by
  refine ⟨?_, ?_, ?_⟩ <;> decide

/-- C2.  The spec's end-to-end example claims 1 valid patient, 1 valid
reading and 0 errors, then a load of 1/1 with no load errors.  On the code
the reading fails: the `DeviceReading` model types `patient_id` as
`Optional[int]`, so the string `"p1"` produces an `INVALID_TYPE` error and
no valid reading, and the loader therefore has nothing to insert
(`loaded_readings_count = 0`). -/
theorem claim2_end_to_end_diverges :
    (pipelineTransform [e2ePatientRec] [e2eReadingRec]).1.length = 1
      ∧ (pipelineTransform [e2ePatientRec] [e2eReadingRec]).2.1 = []
      ∧ (pipelineTransform [e2ePatientRec] [e2eReadingRec]).2.2.map ErrorRecord.error_type
          = ["INVALID_TYPE"]
      ∧ (loadData connEmpty (pipelineTransform [e2ePatientRec] [e2eReadingRec]).1
          (pipelineTransform [e2ePatientRec] [e2eReadingRec]).2.1).1.loaded_readings_count
          = 0 := by
  refine ⟨?_, ?_, ?_, ?_⟩ <;> decide

/-- C3.  Three readings on one temporal key whose timestamps arrive in the
order [10:00, 09:00, 11:00] and which pass field validation: exactly one
`TIMESTAMP_ORDER_INCONSISTENCY` error is emitted, it references the second
reading's id, and all three readings stay in the valid output.  The
awareness hypothesis restricts to batches on which Python's datetime
comparison is defined (naive-vs-aware comparison raises). -/
theorem claim3_single_order_error (a b c : RawRecord) (ra rb rc : DeviceReading)
    (ta tb tc : PyDateTime)
    (ha1 : (transformDeviceReading a 0).entity = some ra)
    (ha2 : (transformDeviceReading a 0).err = none)
    (hb1 : (transformDeviceReading b 1).entity = some rb)
    (hb2 : (transformDeviceReading b 1).err = none)
    (hc1 : (transformDeviceReading c 2).entity = some rc)
    (hc2 : (transformDeviceReading c 2).err = none)
    (hta : parseIsoDatetime (pyReplaceZ ra.timestamp) = some ta)
    (htb : parseIsoDatetime (pyReplaceZ rb.timestamp) = some tb)
    (htc : parseIsoDatetime (pyReplaceZ rc.timestamp) = some tc)
    (hkb : rb.patient_id = ra.patient_id)
    (hkc : rc.patient_id = ra.patient_id)
    (hord1 : tb.utcMicros < ta.utcMicros)
    (hord2 : ta.utcMicros ≤ tc.utcMicros)
    (haware : ta.off.isSome ∧ tb.off.isSome ∧ tc.off.isSome) :
    (pipelineTransform [] [a, b, c]).2.1 = [ra, rb, rc]
      ∧ (pipelineTransform [] [a, b, c]).2.2
          = [tsOrderError rb b 1 rb.timestamp ta ra.patient_id]
      ∧ (tsOrderError rb b 1 rb.timestamp ta ra.patient_id).error_type
          = "TIMESTAMP_ORDER_INCONSISTENCY"
      ∧ (tsOrderError rb b 1 rb.timestamp ta ra.patient_id).reference
          = rb.reading_id := by
  have h1 : ¬ (tb.utcMicros ≥ ta.utcMicros) := not_le.mpr hord1
  have h2 : ¬ (tc.utcMicros < ta.utcMicros) := not_lt.mpr hord2
  have h3 : tc.utcMicros ≥ ta.utcMicros := hord2
  refine ⟨?_, ?_, rfl, entity_reference b 1 rb hb1⟩ <;>
    simp [pipelineTransform, patGo, devGo, ha1, ha2, hb1, hb2, hc1, hc2,
      hta, htb, htc, hkb, hkc, hord1, h1, h2, h3, wmGet, wmSet, appendDedup]

/-- Witness for C3 at the spec's own instance (timestamps 10:00, 09:00,
11:00 on one key). -/
theorem claim3_single_order_error_witness :
    (pipelineTransform [] [wmRec1, wmRec2, wmRec3]).2.1 = [wmread1, wmread2, wmread3]
      ∧ (pipelineTransform [] [wmRec1, wmRec2, wmRec3]).2.2
          = [tsOrderError wmread2 wmRec2 1 wmread2.timestamp wmT1 wmread1.patient_id]
      ∧ (tsOrderError wmread2 wmRec2 1 wmread2.timestamp wmT1 wmread1.patient_id).error_type
          = "TIMESTAMP_ORDER_INCONSISTENCY"
      ∧ (tsOrderError wmread2 wmRec2 1 wmread2.timestamp wmT1 wmread1.patient_id).reference
          = wmread2.reading_id :=
  claim3_single_order_error wmRec1 wmRec2 wmRec3 wmread1 wmread2 wmread3
    wmT1 wmT2 wmT3 (by decide) (by decide) (by decide) (by decide) (by decide)
    (by decide) (by decide) (by decide) (by decide) rfl rfl (by decide) (by decide)
    (by decide)

/-- C4 as amended.  The priority classification (range message, then
format message, then missing, then type coercion, then `VALUE_ERROR`)
holds for `transform_device_reading`: on every validation outcome the
code's message-sniffing classifier agrees with the spec's priority
classifier.  `transform_patient`, however, uses a simpler rule — a message
containing "format" gives `INVALID_FORMAT` and anything else gives
`VALIDATION_ERROR` — so it never emits `MISSING_VALUE`, `INVALID_TYPE` or
`VALUE_ERROR`. -/
theorem claim4_amended_classification :
    (∀ r : RawRecord, errTypeOf (deviceValidate r) = specErrTypeOf (deviceValidate r))
      ∧ (∀ (r : RawRecord) (i : Nat),
          (transformPatient r i).2.map ErrorRecord.error_type
            = (transformPatient r i).2.map fun er =>
                if strHas (lowerStr er.case_description) "format" then "INVALID_FORMAT"
                else "VALIDATION_ERROR") := by
  constructor
  · intro r
    cases h : deviceValidate r with
    | error e =>
      simp only [errTypeOf, specErrTypeOf]
      exact congrArg some (errAgrees_deviceValidate r e h)
    | ok d => rfl
  · intro r i
    rcases h : patientValidate r with e | p <;>
      simp [transformPatient, h, classifyPatientError]

/-- Counterexample to C4 as stated: a patient record with no `name` is a
missing-required-field signal, but `transform_patient` classifies it as
`VALIDATION_ERROR`, not `MISSING_VALUE`. -/
theorem claim4_counterexample_missing_name :
    patientValidate noNameRec = .error ⟨"name", .missing, "Field required"⟩
      ∧ (transformPatient noNameRec 4).2.map ErrorRecord.error_type
          = some "VALIDATION_ERROR"
      ∧ (transformPatient noNameRec 4).2.map ErrorRecord.error_type
          ≠ some "MISSING_VALUE" := by
  refine ⟨rfl, ?_, ?_⟩ <;> decide

/-- C5 as amended: for a device record on which field validation as a
whole succeeds and whose reading carries both blood-pressure values with
`diastolic_bp >= systolic_bp`, the transform returns no entity and exactly
one `LOGICAL_INCONSISTENCY` error referencing the reading. -/
theorem claim5_amended_bp_inconsistency (r : RawRecord) (i : Nat)
    (d : DeviceReading) (s dia : Int)
    (hval : deviceValidate (coerceNumericStrings r) = .ok d)
    (hs : d.systolic_bp = some s) (hd : d.diastolic_bp = some dia) (hge : dia ≥ s) :
    (transformDeviceReading r i).entity = none
      ∧ (transformDeviceReading r i).err.map ErrorRecord.error_type
          = some "LOGICAL_INCONSISTENCY"
      ∧ (transformDeviceReading r i).err.map ErrorRecord.reference
          = some ((r.get "reading_id").getD (.vint i)) := by
  simp only [transformDeviceReading, hval]
  have h1 : (if d.reading_id = RawValue.vnull
      then { d with reading_id := (r.get "reading_id").getD (RawValue.vint i) }
      else d).systolic_bp = some s := by
    split <;> simpa using hs
  have h2 : (if d.reading_id = RawValue.vnull
      then { d with reading_id := (r.get "reading_id").getD (RawValue.vint i) }
      else d).diastolic_bp = some dia := by
    split <;> simpa using hd
  rw [h1, h2]
  dsimp only
  rw [if_pos hge]
  simp

/-- Witness for C5's amended theorem at a concrete record with a valid
timestamp and blood pressure 100/110. -/
theorem claim5_amended_bp_inconsistency_witness :
    (transformDeviceReading bpRec 7).entity = none
      ∧ (transformDeviceReading bpRec 7).err.map ErrorRecord.error_type
          = some "LOGICAL_INCONSISTENCY"
      ∧ (transformDeviceReading bpRec 7).err.map ErrorRecord.reference
          = some ((bpRec.get "reading_id").getD (.vint 7)) :=
  claim5_amended_bp_inconsistency bpRec 7
    ⟨none, "2023-01-01T12:00:00Z", none, some 100, some 110, none, .vstr "d8"⟩
    100 110 rfl rfl rfl (by decide)

/-- Counterexample to C5 as stated: both blood-pressure fields are present,
in range, and inconsistent, but because the record has no timestamp the
transform reports `MISSING_VALUE`, not `LOGICAL_INCONSISTENCY`. -/
theorem claim5_counterexample_missing_timestamp :
    (bpNoTsRec.get "systolic_bp" = some (.vint 100)
        ∧ bpNoTsRec.get "diastolic_bp" = some (.vint 110)
        ∧ ((0:Int) < 100 ∧ (100:Int) < 300) ∧ ((0:Int) < 110 ∧ (110:Int) < 300)
        ∧ (110:Int) ≥ 100)
      ∧ (transformDeviceReading bpNoTsRec 0).err.map ErrorRecord.error_type
          = some "MISSING_VALUE"
      ∧ (transformDeviceReading bpNoTsRec 0).err.map ErrorRecord.error_type
          ≠ some "LOGICAL_INCONSISTENCY" := by
  refine ⟨⟨?_, ?_, ?_, ?_, ?_⟩, ?_, ?_⟩ <;> decide

/-- C6.  Both transformers are total on raw records — every validation
failure becomes an `ErrorRecord` (the embedded functions return, never
throw) — and exactly one of (entity, error record) in the returned pair is
non-null. -/
theorem claim6_transform_total_exactly_one (r : RawRecord) (i : Nat) :
    (transformPatient r i).1.isSome = !(transformPatient r i).2.isSome
      ∧ (transformDeviceReading r i).entity.isSome
          = !(transformDeviceReading r i).err.isSome := by
  constructor
  · rcases h : patientValidate r with e | p <;> simp [transformPatient, h]
  · rcases h : deviceValidate (coerceNumericStrings r) with e | d0 <;>
      simp only [transformDeviceReading, h]
    · simp
    · split
      · split <;> simp
      · simp

/-- C7.  Throughout any batch, the watermark map tracks, per key, the
maximum instant of all successfully validated readings processed so far
(the statement quantifies over arbitrary record lists, hence over every
prefix of a batch, and the empty-initial-state fold is exactly the
orchestrator's device loop).  The awareness hypothesis restricts to batches
on which Python's datetime comparison is defined. -/
theorem claim7_watermark_running_max (rs : List RawRecord) (k : Option Int)
    (haware : batchAware rs = true) :
    (wmGet (devGo 0 rs [] [] []).2.2 k).map PyDateTime.utcMicros
      = maxCombine none (seenFrom 0 rs k) := by
  have h := devGo_wm rs 0 [] [] [] k
  simpa [wmGet] using h

/-- Witness for C7 on a two-record batch. -/
theorem claim7_watermark_running_max_witness :
    batchAware [wmRec1, wmRec2] = true
      ∧ (wmGet (devGo 0 [wmRec1, wmRec2] [] [] []).2.2 none).map PyDateTime.utcMicros
          = maxCombine none (seenFrom 0 [wmRec1, wmRec2] none) :=
  ⟨by decide, claim7_watermark_running_max [wmRec1, wmRec2] none (by decide)⟩

/-- C8.  Loading the same patient (id `"p1"`) twice is idempotent: on any
fresh connection whose store has no row keyed `"p1"`, the first call
reports `loaded_patients_count = 1`, the second reports `0` (the
conflicting insert is skipped by `ON CONFLICT (id) DO NOTHING`, not applied
as an update), and the committed store is unchanged by the repeat. -/
theorem claim8_loader_idempotent (c : Conn)
    (hfresh : c.pending = c.committed)
    (hnew : ∀ row ∈ c.committed.patients, sqlKey row.id ≠ some "p1") :
    (loadData c [patP1] []).1.loaded_patients_count = 1
      ∧ (loadData (loadData c [patP1] []).2 [patP1] []).1.loaded_patients_count = 0
      ∧ (loadData (loadData c [patP1] []).2 [patP1] []).2.committed
          = (loadData c [patP1] []).2.committed := by
  have hfail : patientInsertFailure patP1 = none := rfl
  have hkey : sqlKey patP1.id = some "p1" := rfl
  have hany : (c.pending.patients.any fun row => sqlKey row.id = some "p1") = false := by
    rw [hfresh, List.any_eq_false]
    intro row hrow
    simpa using hnew row hrow
  simp only [loadData, List.foldl_cons, List.foldl_nil, loadPatientStep, hfail, hkey,
    hany, Bool.false_eq_true, if_false, Conn.commit]
  refine ⟨trivial, ?_, ?_⟩ <;>
    simp [loadData, loadPatientStep, hfail, hkey, Conn.commit, List.any_append]

/-- Witness for C8 from the empty store. -/
theorem claim8_loader_idempotent_witness :
    (loadData connEmpty [patP1] []).1.loaded_patients_count = 1
      ∧ (loadData (loadData connEmpty [patP1] []).2 [patP1] []).1.loaded_patients_count = 0
      ∧ (loadData (loadData connEmpty [patP1] []).2 [patP1] []).2.committed
          = (loadData connEmpty [patP1] []).2.committed :=
  claim8_loader_idempotent connEmpty rfl (by simp [connEmpty])

/-- C9.  The numeric range checks are strict open intervals.  On a record
with a valid timestamp and one numeric field present, the reading is
accepted exactly when the value lies strictly inside the interval —
glucose and weight in (0, 1000), systolic and diastolic blood pressure in
(0, 300) — and rejected with an error otherwise; glucose 0 and 1000 are
rejected while 0.01 and 999.99 are accepted; an absent
numeric field is valid and unset. -/
theorem claim9_open_interval_ranges :
    (∀ q : Rat,
        ((transformDeviceReading (boundWith "glucose" (.vrat q)) 0).entity).isSome
            = decide (0 < q ∧ q < 1000)
          ∧ ((transformDeviceReading (boundWith "glucose" (.vrat q)) 0).err).isSome
            = decide ¬(0 < q ∧ q < 1000))
      ∧ (∀ n : Int,
          ((transformDeviceReading (boundWith "systolic_bp" (.vint n)) 0).entity).isSome
              = decide (0 < n ∧ n < 300)
            ∧ ((transformDeviceReading (boundWith "systolic_bp" (.vint n)) 0).err).isSome
              = decide ¬(0 < n ∧ n < 300))
      ∧ (∀ n : Int,
          ((transformDeviceReading (boundWith "diastolic_bp" (.vint n)) 0).entity).isSome
              = decide (0 < n ∧ n < 300)
            ∧ ((transformDeviceReading (boundWith "diastolic_bp" (.vint n)) 0).err).isSome
              = decide ¬(0 < n ∧ n < 300))
      ∧ (∀ q : Rat,
          ((transformDeviceReading (boundWith "weight" (.vrat q)) 0).entity).isSome
              = decide (0 < q ∧ q < 1000)
            ∧ ((transformDeviceReading (boundWith "weight" (.vrat q)) 0).err).isSome
              = decide ¬(0 < q ∧ q < 1000))
      ∧ ((transformDeviceReading (boundWith "glucose" (.vint 0)) 0).entity = none
          ∧ ((transformDeviceReading (boundWith "glucose" (.vint 0)) 0).err).isSome = true)
      ∧ ((transformDeviceReading (boundWith "glucose" (.vint 1000)) 0).entity = none
          ∧ ((transformDeviceReading (boundWith "glucose" (.vint 1000)) 0).err).isSome = true)
      ∧ ((transformDeviceReading (boundWith "glucose" (.vrat (mkRat 1 100))) 0).entity.isSome = true
          ∧ ((transformDeviceReading (boundWith "glucose" (.vrat (mkRat 1 100))) 0).err).isSome = false)
      ∧ ((transformDeviceReading (boundWith "glucose" (.vrat (mkRat 99999 100))) 0).entity.isSome = true
          ∧ ((transformDeviceReading (boundWith "glucose" (.vrat (mkRat 99999 100))) 0).err).isSome = false)
      ∧ ((transformDeviceReading boundBase 0).entity
          = some ⟨none, "2023-01-01T12:00:00Z", none, none, none, none, .vstr "d"⟩) := by
  have hts : tsValidator "2023-01-01T12:00:00Z" = .ok "2023-01-01T12:00:00Z" := rfl
  refine ⟨?_, ?_, ?_, ?_, ⟨by decide, by decide⟩, ⟨by decide, by decide⟩,
    ⟨by decide, by decide⟩, ⟨by decide, by decide⟩, by decide⟩
  · intro q
    have hco : coerceNumericStrings (boundWith "glucose" (.vrat q))
        = boundWith "glucose" (.vrat q) := rfl
    have g1 : (boundWith "glucose" (.vrat q)).get "patient_id" = none := rfl
    have g2 : (boundWith "glucose" (.vrat q)).get "timestamp"
        = some (.vstr "2023-01-01T12:00:00Z") := rfl
    have g3 : (boundWith "glucose" (.vrat q)).get "glucose" = some (.vrat q) := rfl
    have g4 : (boundWith "glucose" (.vrat q)).get "systolic_bp" = none := rfl
    have g5 : (boundWith "glucose" (.vrat q)).get "diastolic_bp" = none := rfl
    have g6 : (boundWith "glucose" (.vrat q)).get "weight" = none := rfl
    have g7 : (boundWith "glucose" (.vrat q)).get "reading_id" = some (.vstr "d") := rfl
    constructor <;>
      (by_cases h : (0:Rat) < q ∧ q < 1000 <;>
        (simp only [transformDeviceReading, hco, deviceValidate, g1, g2, g3, g4, g5,
            g6, g7, reqStr, optIntField, optFloatField, rangeCheck, hts,
            Bind.bind, Except.bind]
         first
           | rw [if_pos h]
           | rw [if_neg h]) <;>
        simp [h])
  · intro n
    have hco : coerceNumericStrings (boundWith "systolic_bp" (.vint n))
        = boundWith "systolic_bp" (.vint n) := rfl
    have g1 : (boundWith "systolic_bp" (.vint n)).get "patient_id" = none := rfl
    have g2 : (boundWith "systolic_bp" (.vint n)).get "timestamp"
        = some (.vstr "2023-01-01T12:00:00Z") := rfl
    have g3 : (boundWith "systolic_bp" (.vint n)).get "glucose" = none := rfl
    have g4 : (boundWith "systolic_bp" (.vint n)).get "systolic_bp"
        = some (.vint n) := rfl
    have g5 : (boundWith "systolic_bp" (.vint n)).get "diastolic_bp" = none := rfl
    have g6 : (boundWith "systolic_bp" (.vint n)).get "weight" = none := rfl
    have g7 : (boundWith "systolic_bp" (.vint n)).get "reading_id"
        = some (.vstr "d") := rfl
    constructor <;>
      (by_cases h : (0:Int) < n ∧ n < 300 <;>
        (simp only [transformDeviceReading, hco, deviceValidate, g1, g2, g3, g4, g5,
            g6, g7, reqStr, optIntField, optFloatField, rangeCheck, hts,
            Bind.bind, Except.bind]
         first
           | rw [if_pos h]
           | rw [if_neg h]) <;>
        simp [h])
  · intro n
    have hco : coerceNumericStrings (boundWith "diastolic_bp" (.vint n))
        = boundWith "diastolic_bp" (.vint n) := rfl
    have g1 : (boundWith "diastolic_bp" (.vint n)).get "patient_id" = none := rfl
    have g2 : (boundWith "diastolic_bp" (.vint n)).get "timestamp"
        = some (.vstr "2023-01-01T12:00:00Z") := rfl
    have g3 : (boundWith "diastolic_bp" (.vint n)).get "glucose" = none := rfl
    have g4 : (boundWith "diastolic_bp" (.vint n)).get "systolic_bp" = none := rfl
    have g5 : (boundWith "diastolic_bp" (.vint n)).get "diastolic_bp"
        = some (.vint n) := rfl
    have g6 : (boundWith "diastolic_bp" (.vint n)).get "weight" = none := rfl
    have g7 : (boundWith "diastolic_bp" (.vint n)).get "reading_id"
        = some (.vstr "d") := rfl
    constructor <;>
      (by_cases h : (0:Int) < n ∧ n < 300 <;>
        (simp only [transformDeviceReading, hco, deviceValidate, g1, g2, g3, g4, g5,
            g6, g7, reqStr, optIntField, optFloatField, rangeCheck, hts,
            Bind.bind, Except.bind]
         first
           | rw [if_pos h]
           | rw [if_neg h]) <;>
        simp [h])
  · intro q
    have hco : coerceNumericStrings (boundWith "weight" (.vrat q))
        = boundWith "weight" (.vrat q) := rfl
    have g1 : (boundWith "weight" (.vrat q)).get "patient_id" = none := rfl
    have g2 : (boundWith "weight" (.vrat q)).get "timestamp"
        = some (.vstr "2023-01-01T12:00:00Z") := rfl
    have g3 : (boundWith "weight" (.vrat q)).get "glucose" = none := rfl
    have g4 : (boundWith "weight" (.vrat q)).get "systolic_bp" = none := rfl
    have g5 : (boundWith "weight" (.vrat q)).get "diastolic_bp" = none := rfl
    have g6 : (boundWith "weight" (.vrat q)).get "weight" = some (.vrat q) := rfl
    have g7 : (boundWith "weight" (.vrat q)).get "reading_id" = some (.vstr "d") := rfl
    constructor <;>
      (by_cases h : (0:Rat) < q ∧ q < 1000 <;>
        (simp only [transformDeviceReading, hco, deviceValidate, g1, g2, g3, g4, g5,
            g6, g7, reqStr, optIntField, optFloatField, rangeCheck, hts,
            Bind.bind, Except.bind]
         first
           | rw [if_pos h]
           | rw [if_neg h]) <;>
        simp [h])

/-- C10.  The transformer's numeric-string coercion writes back into the
caller's record for the four numeric fields — empty string to null, a
string containing `.` to its decimal parse, any other parseable string to
its integer parse — and the write-back happens regardless of the
validation outcome: on every record with dict-like (duplicate-free) keys,
the record the transform leaves behind is exactly the claim's field map
`specCoerceRecord`. -/
theorem claim10_numeric_string_writeback (r : RawRecord) (i : Nat)
    (hnd : (r.map Prod.fst).Nodup) :
    (transformDeviceReading r i).record = specCoerceRecord r := by
  rw [record_component, coerce_spec r hnd]

/-- Witness for C10 at a record whose string values exercise all four
coercion branches (and whose validation fails on `weight`, showing the
write-back survives rejection). -/
theorem claim10_numeric_string_writeback_witness :
    (numStrRec.map Prod.fst).Nodup
      ∧ (transformDeviceReading numStrRec 0).record = specCoerceRecord numStrRec :=
  ⟨by decide, claim10_numeric_string_writeback numStrRec 0 (by decide)⟩

end ETL
